import Mathlib

/-!
Verification of `validator/journal/consensus/poet1/wait_timer.py` (sawtooth-seth).

The module implements PoET wait timers: a population estimator over a
certificate history, a local-mean computation with a bootstrap and a
steady-state regime, timer creation and expiry checking against an enclave
capability, and a module-level reconfiguration function for the class-level
globals.

Python floats are embedded as exact rationals (`ℚ`); Python exceptions
(`assert` failures, `ZeroDivisionError`) are embedded as `Except` errors;
the mutable class attributes of `WaitTimer` are embedded as an explicit
`Globals` record threaded through the class methods; calls into the
`poet_enclave` module are recorded in an explicit call trace so that
claims about which enclave operations run (and how often) are statable.
-/

/-- Modelled from the spec: `NullIdentifier` is imported from `gossip.common`,
which is not part of this repository slice. The spec only requires "a defined
null identifier" used when no certificates exist yet (genesis case); its
concrete value is never inspected by this module. -/
def NullIdentifier : String := "0000000000000000"

/-- A committed wait certificate, as consumed by this module: only its
`identifier`, `duration` and `local_mean` attributes are read. -/
structure Certificate where
  identifier : String
  duration : ℚ
  local_mean : ℚ
deriving DecidableEq

/-- The mutable class-level attributes of `WaitTimer`
(`wait_timer.py` lines 51-55), threaded explicitly. -/
structure Globals where
  minimum_wait_time : ℚ
  target_wait_time : ℚ
  initial_wait_time : ℚ
  certificate_sample_length : ℕ
  fixed_duration_blocks : ℕ
deriving DecidableEq

/-- The class-attribute defaults: `minimum_wait_time = 1.0`,
`target_wait_time = 30.0`, `initial_wait_time = 3000.0`,
`certificate_sample_length = 50`,
`fixed_duration_blocks = certificate_sample_length`. -/
def defaultGlobals : Globals :=
  { minimum_wait_time := 1
    target_wait_time := 30
    initial_wait_time := 3000
    certificate_sample_length := 50
    fixed_duration_blocks := 50 }

/-- The timer object handed back by the enclave: the attributes read by
`WaitTimer.__init__`, plus the result of its `serialize()` method. -/
structure EnclaveTimer where
  previous_certificate_id : String
  local_mean : ℚ
  request_time : ℚ
  duration : ℚ
  signature : String
  serialized : String
deriving DecidableEq

/-- The `poet_enclave` module capability: the constant and the functions this
module calls on it. -/
structure PoetEnclave where
  MINIMUM_WAIT_TIME : ℚ
  create_wait_timer : String → ℚ → EnclaveTimer
  deserialize_wait_timer : String → String → EnclaveTimer
  verify_wait_timer : EnclaveTimer → Bool

/-- A call into the enclave capability, for the call-trace instrumentation. -/
inductive EnclaveCall where
  | deserialize (serialized signature : String)
  | verify (timer : EnclaveTimer)
deriving DecidableEq

/-- Exceptions this module can raise: a failed `assert`
(`InvalidArgument`, insufficient history in `_population_estimate`) and a
Python `ZeroDivisionError`. -/
inductive PoetError where
  | invalidArgument
  | zeroDivisionError
deriving DecidableEq

/-- A `WaitTimer` instance: the attributes set by `__init__`
(`wait_timer.py` lines 161-175). -/
structure WaitTimer where
  previous_certificate_id : String
  local_mean : ℚ
  request_time : ℚ
  duration : ℚ
  signature : String
  serialized_timer : String
  expires : ℚ
deriving DecidableEq

namespace WaitTimer

/-- Embedding of `WaitTimer._population_estimate` (lines 59-97): sum
`duration - poet_enclave.MINIMUM_WAIT_TIME` and `local_mean` over the first
`certificate_sample_length` certificates, divide each sum by the full input
length, return `avg_mean / avg_wait`. The `assert len >= sample_length`
failure and Python float division by zero are explicit errors. -/
def _population_estimate (cfg : Globals) (encl : PoetEnclave)
    (certificates : List Certificate) : Except PoetError ℚ :=
  if certificates.length < cfg.certificate_sample_length then
    .error .invalidArgument
  else
    let sample := certificates.take cfg.certificate_sample_length
    let sum_waits := (sample.map (fun c => c.duration - encl.MINIMUM_WAIT_TIME)).sum
    let sum_means := (sample.map (fun c => c.local_mean)).sum
    if certificates.length = 0 then
      .error .zeroDivisionError
    else
      let avg_wait := sum_waits / (certificates.length : ℚ)
      let avg_mean := sum_means / (certificates.length : ℚ)
      if avg_wait = 0 then
        .error .zeroDivisionError
      else
        .ok (avg_mean / avg_wait)

/-- Embedding of `WaitTimer.compute_local_mean` (lines 129-152): bootstrap
formula when `count < fixed_duration_blocks`, otherwise
`target_wait_time * _population_estimate(certificates)`. -/
def compute_local_mean (cfg : Globals) (encl : PoetEnclave)
    (certificates : List Certificate) : Except PoetError ℚ :=
  let count := certificates.length
  if count < cfg.fixed_duration_blocks then
    let r : ℚ := (count : ℚ) / (cfg.fixed_duration_blocks : ℚ)
    .ok ((cfg.target_wait_time * (1 - r * r)) + (cfg.initial_wait_time * (r * r)))
  else
    (_population_estimate cfg encl certificates).map
      (fun p => cfg.target_wait_time * p)

/-- Embedding of the `previous_certificate_id` selection inside
`WaitTimer.create_wait_timer` (lines 111-114):
`certificates[-1].identifier if certificates else NullIdentifier`. -/
def previous_id_of (certificates : List Certificate) : String :=
  match certificates.getLast? with
  | some c => c.identifier
  | none => NullIdentifier

/-- Embedding of `WaitTimer.__init__` (lines 161-175): copy the enclave
timer's attributes, retain its serialized form, and set
`_expires = time.time() + duration + 0.1` with `time.time()` passed in
explicitly as `timeNow`. -/
def init (enclave_timer : EnclaveTimer) (timeNow : ℚ) : WaitTimer :=
  { previous_certificate_id := enclave_timer.previous_certificate_id
    local_mean := enclave_timer.local_mean
    request_time := enclave_timer.request_time
    duration := enclave_timer.duration
    signature := enclave_timer.signature
    serialized_timer := enclave_timer.serialized
    expires := timeNow + enclave_timer.duration + (1 / 10 : ℚ) }

/-- Embedding of `WaitTimer.create_wait_timer` (lines 100-127): pick the
previous certificate id, compute the local mean, have the enclave create a
timer, and wrap it. -/
def create_wait_timer (cfg : Globals) (encl : PoetEnclave) (timeNow : ℚ)
    (certificates : List Certificate) : Except PoetError WaitTimer :=
  let previous_certificate_id := previous_id_of certificates
  (compute_local_mean cfg encl certificates).map
    (fun local_mean =>
      init (encl.create_wait_timer previous_certificate_id local_mean) timeNow)

/-- Embedding of the `enclave_wait_timer` property (lines 154-159): every
read deserializes the retained form afresh; the trace records the call. -/
def enclave_wait_timer (encl : PoetEnclave) (t : WaitTimer) :
    EnclaveTimer × List EnclaveCall :=
  (encl.deserialize_wait_timer t.serialized_timer t.signature,
    [.deserialize t.serialized_timer t.signature])

/-- Embedding of `WaitTimer.has_expired` (lines 182-194), with the timer
state passed through explicitly (the method body performs no attribute
write) and the enclave calls it makes recorded in a trace. -/
def has_expired (encl : PoetEnclave) (t : WaitTimer) (now : ℚ) :
    Bool × WaitTimer × List EnclaveCall :=
  if now < t.expires then
    (false, t, [])
  else
    let et := enclave_wait_timer encl t
    (encl.verify_wait_timer et.1, t, et.2 ++ [.verify et.1])

end WaitTimer

/-- Embedding of the module-level `set_wait_timer_globals` (lines 197-212):
each supplied (`some`) parameter overwrites the class attribute, in source
order; supplying `certificate_sample_length` also overwrites
`fixed_duration_blocks`, and an explicit `fixed_duration_blocks` is applied
afterwards. -/
def set_wait_timer_globals (g : Globals)
    (target_wait_time : Option ℚ)
    (initial_wait_time : Option ℚ)
    (certificate_sample_length : Option ℕ)
    (fixed_duration_blocks : Option ℕ)
    (minimum_wait_time : Option ℚ) : Globals :=
  let g1 := match target_wait_time with
    | some v => { g with target_wait_time := v }
    | none => g
  let g2 := match initial_wait_time with
    | some v => { g1 with initial_wait_time := v }
    | none => g1
  let g3 := match certificate_sample_length with
    | some v => { g2 with certificate_sample_length := v,
                          fixed_duration_blocks := v }
    | none => g2
  let g4 := match fixed_duration_blocks with
    | some v => { g3 with fixed_duration_blocks := v }
    | none => g3
  match minimum_wait_time with
  | some v => { g4 with minimum_wait_time := v }
  | none => g4

/-! ### Spec-side reference definitions (for the refinement claims) -/

/-- Following the spec's words: `sum_waits` accumulates
`wait_above_minimum = duration − minimum_wait_time` (the enclave-level
minimum) over the newest `certificate_sample_length` certificates. -/
def spec_sum_waits (cfg : Globals) (encl : PoetEnclave)
    (certificates : List Certificate) : ℚ :=
  ((certificates.take cfg.certificate_sample_length).map
    (fun c => c.duration - encl.MINIMUM_WAIT_TIME)).sum

/-- Following the spec's words: `sum_means = Σ local_mean` over the newest
`certificate_sample_length` certificates. -/
def spec_sum_means (cfg : Globals) (certificates : List Certificate) : ℚ :=
  ((certificates.take cfg.certificate_sample_length).map
    (fun c => c.local_mean)).sum

/-- Following the spec's words: the two-regime reference definition of the
local mean, with the boundary `count = fixed_duration_blocks` assigned to
the steady-state regime and the bootstrap value written with `ratio²`. -/
def spec_local_mean (cfg : Globals) (encl : PoetEnclave)
    (certificates : List Certificate) : Except PoetError ℚ :=
  let count := certificates.length
  if cfg.fixed_duration_blocks ≤ count then
    (WaitTimer._population_estimate cfg encl certificates).map
      (fun p => cfg.target_wait_time * p)
  else
    let r : ℚ := (count : ℚ) / (cfg.fixed_duration_blocks : ℚ)
    .ok (cfg.target_wait_time * (1 - r ^ 2) + cfg.initial_wait_time * r ^ 2)

/-! ### Concrete example values used by witnesses and counterexamples -/

/-- A concrete enclave capability for witnesses: every check verifies, and
deserialization echoes its inputs into the reconstructed handle. -/
def exampleEnclave : PoetEnclave :=
  { MINIMUM_WAIT_TIME := 1
    create_wait_timer := fun p m => ⟨p, m, 0, 7, "sig", "ser"⟩
    deserialize_wait_timer := fun s sig => ⟨"p", 0, 0, 7, sig, s⟩
    verify_wait_timer := fun _ => true }

/-- A small configuration (sample length 2, fixed-duration blocks 2) for
concrete evaluations. -/
def smallGlobals : Globals :=
  { minimum_wait_time := 1
    target_wait_time := 30
    initial_wait_time := 3000
    certificate_sample_length := 2
    fixed_duration_blocks := 2 }

/-- Concrete certificate: the newest one in the example histories. -/
def certA : Certificate := ⟨"a", 5, 30⟩

/-- Concrete certificate: the second-newest one in the example histories. -/
def certB : Certificate := ⟨"b", 3, 60⟩

/-- Concrete certificate: the oldest one in the example histories. -/
def certC : Certificate := ⟨"c", 100, 100⟩

/-- Concrete certificate whose duration equals the example enclave's
`MINIMUM_WAIT_TIME`, so its wait above the minimum is zero. -/
def certMin : Certificate := ⟨"m", 1, 30⟩

/-- A concrete timer instance that expires at time 10. -/
def exampleTimer : WaitTimer := ⟨"p", 30, 0, 5, "sig", "ser", 10⟩

/-! ### Shared helper lemmas -/

namespace WaitTimer

/-- Helper: on sufficient history with a nonzero sampled wait sum, the
population estimate succeeds and returns the quotient of the two
full-length averages. -/
lemma population_estimate_eq_avg (cfg : Globals) (encl : PoetEnclave)
    (cs : List Certificate)
    (hlen : cfg.certificate_sample_length ≤ cs.length)
    (hW : spec_sum_waits cfg encl cs ≠ 0) :
    _population_estimate cfg encl cs =
      .ok ((spec_sum_means cfg cs / (cs.length : ℚ)) /
        (spec_sum_waits cfg encl cs / (cs.length : ℚ))) := by
  have hne : cs.length ≠ 0 := by
    intro h0
    apply hW
    have hs : cfg.certificate_sample_length = 0 := by omega
    simp [spec_sum_waits, List.length_eq_zero.mp h0]
  have hdiv : ((cs.take cfg.certificate_sample_length).map
      (fun c => c.duration - encl.MINIMUM_WAIT_TIME)).sum / (cs.length : ℚ) ≠ 0 :=
    div_ne_zero hW (Nat.cast_ne_zero.mpr hne)
  simp only [_population_estimate, if_neg (Nat.not_lt.mpr hlen), if_neg hne,
    if_neg hdiv]
  rfl

/-- Helper: the full-length divisors cancel, so the estimate equals the
plain ratio of the sampled sums. -/
lemma population_estimate_eq_ratio (cfg : Globals) (encl : PoetEnclave)
    (cs : List Certificate)
    (hlen : cfg.certificate_sample_length ≤ cs.length)
    (hW : spec_sum_waits cfg encl cs ≠ 0) :
    _population_estimate cfg encl cs =
      .ok (spec_sum_means cfg cs / spec_sum_waits cfg encl cs) := by
  have hne : cs.length ≠ 0 := by
    intro h0
    apply hW
    have hs : cfg.certificate_sample_length = 0 := by omega
    simp [spec_sum_waits, List.length_eq_zero.mp h0]
  have hn : (cs.length : ℚ) ≠ 0 := Nat.cast_ne_zero.mpr hne
  rw [population_estimate_eq_avg cfg encl cs hlen hW]
  congr 1
  field_simp

/-- Helper: in the bootstrap regime the local mean is
`target + (initial − target) * ratio²`. -/
lemma compute_local_mean_bootstrap (cfg : Globals) (encl : PoetEnclave)
    (cs : List Certificate) (h : cs.length < cfg.fixed_duration_blocks) :
    compute_local_mean cfg encl cs =
      .ok (cfg.target_wait_time +
        (cfg.initial_wait_time - cfg.target_wait_time) *
          ((cs.length : ℚ) / (cfg.fixed_duration_blocks : ℚ)) ^ 2) := by
  simp only [compute_local_mean, if_pos h]
  congr 1
  ring

end WaitTimer

/-! ### Claim theorems -/

namespace WaitTimer

/-- C1: for every list of certificates, `compute_local_mean` equals the
two-regime reference definition `spec_local_mean`: below
`fixed_duration_blocks` it returns
`target_wait_time * (1 - ratio^2) + initial_wait_time * ratio^2` with
`ratio = count / fixed_duration_blocks`, and at or above the boundary
(including exact equality) it returns
`target_wait_time * _population_estimate(certificates)`; in particular an
empty history yields exactly `target_wait_time`. -/
theorem compute_local_mean_eq_spec (cfg : Globals) (encl : PoetEnclave) :
    (∀ cs : List Certificate,
      compute_local_mean cfg encl cs = spec_local_mean cfg encl cs) ∧
    (0 < cfg.fixed_duration_blocks →
      compute_local_mean cfg encl [] = .ok cfg.target_wait_time) := by
  constructor
  · intro cs
    by_cases h : cs.length < cfg.fixed_duration_blocks
    · simp only [compute_local_mean, spec_local_mean, if_pos h,
        if_neg (Nat.not_le.mpr h)]
      congr 1
      ring
    · simp only [compute_local_mean, spec_local_mean, if_neg h,
        if_pos (Nat.not_lt.mp h)]
  · intro hf
    have h0 : ([] : List Certificate).length < cfg.fixed_duration_blocks := by
      simpa using hf
    rw [compute_local_mean_bootstrap cfg encl [] h0]
    congr 1
    norm_num

/-- Witness for C1: at the concrete small configuration, the empty history
yields exactly the target wait time. -/
theorem compute_local_mean_eq_spec_witness :
    compute_local_mean smallGlobals exampleEnclave [] =
      .ok smallGlobals.target_wait_time :=
  (compute_local_mean_eq_spec smallGlobals exampleEnclave).2 (by decide)

/-- C2: on a history at least as long as the sample length (and whose sampled
wait sum is nonzero, so the final division is defined), `_population_estimate`
sums `duration - MINIMUM_WAIT_TIME` and `local_mean` over exactly the first
`certificate_sample_length` certificates, divides each sum by the full input
length, and returns `avg_mean / avg_wait`. -/
theorem population_estimate_formula (cfg : Globals) (encl : PoetEnclave)
    (cs : List Certificate)
    (hlen : cfg.certificate_sample_length ≤ cs.length)
    (hW : spec_sum_waits cfg encl cs ≠ 0) :
    _population_estimate cfg encl cs =
      .ok ((spec_sum_means cfg cs / (cs.length : ℚ)) /
        (spec_sum_waits cfg encl cs / (cs.length : ℚ))) :=
  population_estimate_eq_avg cfg encl cs hlen hW

/-- Witness for C2: concrete two-certificate history at sample length 2. -/
theorem population_estimate_formula_witness :
    _population_estimate smallGlobals exampleEnclave [certA, certB] =
      .ok ((spec_sum_means smallGlobals [certA, certB] /
          (([certA, certB] : List Certificate).length : ℚ)) /
        (spec_sum_waits smallGlobals exampleEnclave [certA, certB] /
          (([certA, certB] : List Certificate).length : ℚ))) :=
  population_estimate_formula smallGlobals exampleEnclave [certA, certB]
    (by decide)
    (by norm_num [spec_sum_waits, smallGlobals, exampleEnclave, certA, certB])

/-- C3: refuted on the code (code bug). In the history `[certA, certB]`,
supplied newest first (so `certA`, identifier "a", is the most recent
certificate, the one the new timer extends), the `previous_certificate_id`
selection of `create_wait_timer` evaluates `certificates[-1].identifier`:
it returns "b", the identifier of the last (oldest) element, not the first
element's identifier as the claim states; the empty history does yield the
null identifier. -/
theorem previous_id_of_takes_last_element :
    previous_id_of [certA, certB] = certB.identifier ∧
    previous_id_of [certA, certB] ≠ certA.identifier ∧
    previous_id_of [] = NullIdentifier ∧
    (create_wait_timer smallGlobals exampleEnclave 0 [certA, certB]).map
      (fun t => t.previous_certificate_id) = .ok "b" := by
  refine ⟨by decide, by decide, by decide, ?_⟩
  norm_num [create_wait_timer, compute_local_mean, _population_estimate,
    previous_id_of, init, smallGlobals, exampleEnclave, certA, certB,
    Except.map]

end WaitTimer

namespace WaitTimer

/-- C4: for every timer and every `now` at or past the expiry time,
`has_expired` returns exactly the enclave's
`verify_wait_timer(deserialize_wait_timer(serialized_form, signature))`
boolean, performs exactly one deserialize call and one verify call (the
trace of every such call is exactly that one round trip, so repeated calls
re-invoke it each time), and passes the timer state through unchanged. -/
theorem has_expired_verifies_once (encl : PoetEnclave) (t : WaitTimer)
    (now : ℚ) (h : t.expires ≤ now) :
    has_expired encl t now =
      (encl.verify_wait_timer
          (encl.deserialize_wait_timer t.serialized_timer t.signature),
        t,
        [.deserialize t.serialized_timer t.signature,
          .verify (encl.deserialize_wait_timer t.serialized_timer t.signature)]) := by
  simp [has_expired, enclave_wait_timer, not_lt.mpr h]

/-- Witness for C4: the example timer at its exact expiry time triggers the
single deserialize-and-verify round trip. -/
theorem has_expired_verifies_once_witness :
    has_expired exampleEnclave exampleTimer 10 =
      (exampleEnclave.verify_wait_timer
          (exampleEnclave.deserialize_wait_timer exampleTimer.serialized_timer
            exampleTimer.signature),
        exampleTimer,
        [.deserialize exampleTimer.serialized_timer exampleTimer.signature,
          .verify (exampleEnclave.deserialize_wait_timer
            exampleTimer.serialized_timer exampleTimer.signature)]) :=
  has_expired_verifies_once exampleEnclave exampleTimer 10
    (by norm_num [exampleTimer])

/-- C5: for every timer and every `now` strictly before the expiry time,
`has_expired` returns `false`, makes no enclave call of any kind (empty
trace), and leaves every field of the timer unchanged. -/
theorem has_expired_pending_frame (encl : PoetEnclave) (t : WaitTimer)
    (now : ℚ) (h : now < t.expires) :
    has_expired encl t now = (false, t, []) ∧
    (has_expired encl t now).2.1.previous_certificate_id =
      t.previous_certificate_id ∧
    (has_expired encl t now).2.1.local_mean = t.local_mean ∧
    (has_expired encl t now).2.1.request_time = t.request_time ∧
    (has_expired encl t now).2.1.duration = t.duration ∧
    (has_expired encl t now).2.1.signature = t.signature ∧
    (has_expired encl t now).2.1.serialized_timer = t.serialized_timer ∧
    (has_expired encl t now).2.1.expires = t.expires := by
  simp [has_expired, h]

/-- Witness for C5: the example timer checked before its expiry time. -/
theorem has_expired_pending_frame_witness :
    has_expired exampleEnclave exampleTimer 3 = (false, exampleTimer, []) :=
  (has_expired_pending_frame exampleEnclave exampleTimer 3
    (by norm_num [exampleTimer])).1

end WaitTimer

namespace WaitTimer

/-- C6 counterexample: `compute_local_mean` is not total. At the default
configuration, with an enclave minimum wait time of 1, a history of exactly
50 certificates each of duration 1 reaches the steady-state branch with a
sampled wait sum of zero, and the final `avg_mean / avg_wait` division
raises a `ZeroDivisionError` instead of returning a value. -/
theorem compute_local_mean_division_by_zero :
    compute_local_mean defaultGlobals exampleEnclave
      (List.replicate 50 certMin) = .error .zeroDivisionError := by
  norm_num [compute_local_mean, _population_estimate, defaultGlobals,
    exampleEnclave, certMin, List.replicate, Except.map]

/-- C6 amended: `_population_estimate` fails with the invalid-argument error
on every input shorter than `certificate_sample_length`, and (when
`fixed_duration_blocks` is at least `certificate_sample_length`, as in the
defaults) `compute_local_mean` never triggers that insufficient-history
failure — but it is not total: its only possible failure is the
division-by-zero error that occurs when the sampled waits above the enclave
minimum sum to zero. -/
theorem compute_local_mean_error_classification (cfg : Globals)
    (encl : PoetEnclave)
    (hcfg : cfg.certificate_sample_length ≤ cfg.fixed_duration_blocks)
    (cs : List Certificate) :
    (cs.length < cfg.certificate_sample_length →
      _population_estimate cfg encl cs = .error .invalidArgument) ∧
    (∀ e, compute_local_mean cfg encl cs = .error e →
      e = .zeroDivisionError) := by
  constructor
  · intro hshort
    simp [_population_estimate, hshort]
  · intro e he
    by_cases hb : cs.length < cfg.fixed_duration_blocks
    · simp [compute_local_mean, hb] at he
    · have hlen : ¬ cs.length < cfg.certificate_sample_length := by omega
      simp only [compute_local_mean, if_neg hb, _population_estimate,
        if_neg hlen] at he
      split_ifs at he <;> simp_all [Except.map]

/-- Witness for C6 amended: the empty history is shorter than the default
sample length of 50, so the estimator rejects it with the invalid-argument
error. -/
theorem compute_local_mean_error_classification_witness :
    _population_estimate defaultGlobals exampleEnclave [] =
      .error .invalidArgument :=
  (compute_local_mean_error_classification defaultGlobals exampleEnclave
    (by decide) []).1 (by decide)

end WaitTimer

namespace WaitTimer

/-- C7 counterexample: at sample length 2, on the three-certificate history
`[certA, certB, certC]` (longer than the sample length, with a positive
sampled wait sum of 6), the estimate over the full history and the estimate
over just the newest two certificates are both exactly 15: the full-history
estimate is not strictly smaller, because dividing both sums by the full
length cancels in the ratio. -/
theorem population_estimate_dilution_counterexample :
    smallGlobals.certificate_sample_length <
      ([certA, certB, certC] : List Certificate).length ∧
    0 < spec_sum_waits smallGlobals exampleEnclave [certA, certB, certC] ∧
    _population_estimate smallGlobals exampleEnclave [certA, certB, certC] =
      .ok 15 ∧
    _population_estimate smallGlobals exampleEnclave
      (([certA, certB, certC] : List Certificate).take
        smallGlobals.certificate_sample_length) = .ok 15 ∧
    ¬ ∃ vfull vsample : ℚ,
        _population_estimate smallGlobals exampleEnclave
          [certA, certB, certC] = .ok vfull ∧
        _population_estimate smallGlobals exampleEnclave
          (([certA, certB, certC] : List Certificate).take
            smallGlobals.certificate_sample_length) = .ok vsample ∧
        vfull < vsample := by
  have htake : (([certA, certB, certC] : List Certificate).take
      smallGlobals.certificate_sample_length) = [certA, certB] := rfl
  have h1 : _population_estimate smallGlobals exampleEnclave
      [certA, certB, certC] = .ok 15 := by
    norm_num [_population_estimate, smallGlobals, exampleEnclave, certA,
      certB, certC]
  have h2 : _population_estimate smallGlobals exampleEnclave
      [certA, certB] = .ok 15 := by
    norm_num [_population_estimate, smallGlobals, exampleEnclave, certA,
      certB]
  refine ⟨by decide,
    by norm_num [spec_sum_waits, smallGlobals, exampleEnclave, certA, certB],
    h1, by rw [htake]; exact h2, ?_⟩
  rintro ⟨x, y, hx, hy, hlt⟩
  rw [h1] at hx
  rw [htake, h2] at hy
  simp only [Except.ok.injEq] at hx hy
  rw [← hx, ← hy] at hlt
  exact lt_irrefl _ hlt

/-- C7 amended: on a history strictly longer than the sample length with a
positive sampled wait sum, the population estimate over the full history is
exactly EQUAL to the estimate over just the newest
`certificate_sample_length` certificates — the full-length divisor cancels
in the ratio, so no strict dilution occurs (only the two individual
averages are diluted, not their quotient). -/
theorem population_estimate_sample_invariant (cfg : Globals)
    (encl : PoetEnclave) (cs : List Certificate)
    (hlen : cfg.certificate_sample_length < cs.length)
    (hW : 0 < spec_sum_waits cfg encl cs) :
    _population_estimate cfg encl cs =
      _population_estimate cfg encl
        (cs.take cfg.certificate_sample_length) := by
  have hW' : spec_sum_waits cfg encl cs ≠ 0 := ne_of_gt hW
  have hlen' : cfg.certificate_sample_length ≤ cs.length := le_of_lt hlen
  have htlen : (cs.take cfg.certificate_sample_length).length =
      cfg.certificate_sample_length := by
    simp [List.length_take, min_eq_left hlen']
  have htake2 : (cs.take cfg.certificate_sample_length).take
      cfg.certificate_sample_length = cs.take cfg.certificate_sample_length := by
    simp [List.take_take]
  have hWs : spec_sum_waits cfg encl (cs.take cfg.certificate_sample_length) =
      spec_sum_waits cfg encl cs := by
    simp [spec_sum_waits, htake2]
  have hMs : spec_sum_means cfg (cs.take cfg.certificate_sample_length) =
      spec_sum_means cfg cs := by
    simp [spec_sum_means, htake2]
  rw [population_estimate_eq_ratio cfg encl cs hlen' hW',
    population_estimate_eq_ratio cfg encl _ (le_of_eq htlen.symm)
      (by rw [hWs]; exact hW'),
    hWs, hMs]

/-- Witness for C7 amended: the concrete three-certificate history. -/
theorem population_estimate_sample_invariant_witness :
    _population_estimate smallGlobals exampleEnclave [certA, certB, certC] =
      _population_estimate smallGlobals exampleEnclave
        (([certA, certB, certC] : List Certificate).take
          smallGlobals.certificate_sample_length) :=
  population_estimate_sample_invariant smallGlobals exampleEnclave
    [certA, certB, certC] (by decide)
    (by norm_num [spec_sum_waits, smallGlobals, exampleEnclave, certA, certB])

end WaitTimer

/-- C8: `set_wait_timer_globals` changes exactly the supplied parameters:
each resulting attribute equals the supplied value when present and the
prior value when omitted, except that `fixed_duration_blocks` falls back to
a supplied `certificate_sample_length` before falling back to its prior
value — so supplying the sample length alone also sets
`fixed_duration_blocks`, while an explicitly supplied
`fixed_duration_blocks` wins over both. -/
theorem set_wait_timer_globals_frame (g : Globals) (t i : Option ℚ)
    (c f : Option ℕ) (m : Option ℚ) :
    (set_wait_timer_globals g t i c f m).target_wait_time =
      t.getD g.target_wait_time ∧
    (set_wait_timer_globals g t i c f m).initial_wait_time =
      i.getD g.initial_wait_time ∧
    (set_wait_timer_globals g t i c f m).certificate_sample_length =
      c.getD g.certificate_sample_length ∧
    (set_wait_timer_globals g t i c f m).fixed_duration_blocks =
      f.getD (c.getD g.fixed_duration_blocks) ∧
    (set_wait_timer_globals g t i c f m).minimum_wait_time =
      m.getD g.minimum_wait_time := by
  cases t <;> cases i <;> cases c <;> cases f <;> cases m <;>
    simp [set_wait_timer_globals]

namespace WaitTimer

/-- C9: the local `minimum_wait_time` class attribute has no influence on
the population estimate, which subtracts only the enclave-level
`MINIMUM_WAIT_TIME`: two runs on the same history and the same enclave that
differ only in the configured `minimum_wait_time` return identical results,
for `_population_estimate` on every history and hence for
`compute_local_mean` in the steady-state regime. -/
theorem population_estimate_minimum_wait_time_independent (x : ℚ)
    (cfg : Globals) (encl : PoetEnclave) (cs : List Certificate) :
    _population_estimate { cfg with minimum_wait_time := x } encl cs =
      _population_estimate cfg encl cs ∧
    (cfg.fixed_duration_blocks ≤ cs.length →
      compute_local_mean { cfg with minimum_wait_time := x } encl cs =
        compute_local_mean cfg encl cs) :=
  ⟨rfl, fun _ => rfl⟩

/-- Witness for C9: the steady-state regime at the concrete small
configuration, with the local minimum overridden to 99. -/
theorem population_estimate_minimum_wait_time_independent_witness :
    compute_local_mean { smallGlobals with minimum_wait_time := 99 }
        exampleEnclave [certA, certB] =
      compute_local_mean smallGlobals exampleEnclave [certA, certB] :=
  (population_estimate_minimum_wait_time_independent 99 smallGlobals
    exampleEnclave [certA, certB]).2 (by decide)

/-- C10: when `initial_wait_time > target_wait_time > 0`, the bootstrap
local mean is strictly increasing in the history length (for lengths
`a < b < fixed_duration_blocks`), and every bootstrap value lies in the
half-open interval from `target_wait_time` (inclusive) to
`initial_wait_time` (exclusive). -/
theorem bootstrap_mean_monotone (cfg : Globals) (encl : PoetEnclave)
    (hpos : 0 < cfg.target_wait_time)
    (hlt : cfg.target_wait_time < cfg.initial_wait_time) :
    (∀ cs1 cs2 : List Certificate,
      cs1.length < cs2.length →
      cs2.length < cfg.fixed_duration_blocks →
      ∃ m1 m2, compute_local_mean cfg encl cs1 = .ok m1 ∧
        compute_local_mean cfg encl cs2 = .ok m2 ∧ m1 < m2) ∧
    (∀ cs : List Certificate, cs.length < cfg.fixed_duration_blocks →
      ∃ m, compute_local_mean cfg encl cs = .ok m ∧
        cfg.target_wait_time ≤ m ∧ m < cfg.initial_wait_time) := by
  constructor
  · intro cs1 cs2 h12 h2
    have h1 : cs1.length < cfg.fixed_duration_blocks := lt_trans h12 h2
    have hFn : 0 < cfg.fixed_duration_blocks := lt_of_le_of_lt (Nat.zero_le _) h1
    have hF : (0 : ℚ) < (cfg.fixed_duration_blocks : ℚ) := by exact_mod_cast hFn
    refine ⟨_, _, compute_local_mean_bootstrap cfg encl cs1 h1,
      compute_local_mean_bootstrap cfg encl cs2 h2, ?_⟩
    have hcast : (cs1.length : ℚ) < (cs2.length : ℚ) := by exact_mod_cast h12
    have hq12 : (cs1.length : ℚ) / (cfg.fixed_duration_blocks : ℚ) <
        (cs2.length : ℚ) / (cfg.fixed_duration_blocks : ℚ) :=
      div_lt_div_of_pos_right hcast hF
    have hq10 : 0 ≤ (cs1.length : ℚ) / (cfg.fixed_duration_blocks : ℚ) := by
      positivity
    have hIT : 0 < cfg.initial_wait_time - cfg.target_wait_time := by linarith
    have hsq : ((cs1.length : ℚ) / (cfg.fixed_duration_blocks : ℚ)) ^ 2 <
        ((cs2.length : ℚ) / (cfg.fixed_duration_blocks : ℚ)) ^ 2 := by
      nlinarith
    nlinarith [mul_lt_mul_of_pos_left hsq hIT]
  · intro cs h
    have hFn : 0 < cfg.fixed_duration_blocks := lt_of_le_of_lt (Nat.zero_le _) h
    have hF : (0 : ℚ) < (cfg.fixed_duration_blocks : ℚ) := by exact_mod_cast hFn
    have hq0 : 0 ≤ (cs.length : ℚ) / (cfg.fixed_duration_blocks : ℚ) := by
      positivity
    have hq1 : (cs.length : ℚ) / (cfg.fixed_duration_blocks : ℚ) < 1 := by
      rw [div_lt_one hF]
      exact_mod_cast h
    have hIT : 0 < cfg.initial_wait_time - cfg.target_wait_time := by linarith
    have hsq1 : ((cs.length : ℚ) / (cfg.fixed_duration_blocks : ℚ)) ^ 2 < 1 := by
      nlinarith
    refine ⟨_, compute_local_mean_bootstrap cfg encl cs h, ?_, ?_⟩
    · nlinarith [sq_nonneg ((cs.length : ℚ) / (cfg.fixed_duration_blocks : ℚ))]
    · nlinarith [mul_lt_mul_of_pos_left hsq1 hIT]

/-- Witness for C10: at the concrete small configuration, the one-element
history gives a bootstrap local mean in the half-open target-to-initial
interval. -/
theorem bootstrap_mean_monotone_witness :
    ∃ m, compute_local_mean smallGlobals exampleEnclave [certA] = .ok m ∧
      smallGlobals.target_wait_time ≤ m ∧ m < smallGlobals.initial_wait_time :=
  (bootstrap_mean_monotone smallGlobals exampleEnclave
    (by norm_num [smallGlobals]) (by norm_num [smallGlobals])).2 [certA]
    (by decide)

end WaitTimer
